import Mathlib

/-
  Verification of the cloudbrowser MCP server (src/unnamed/part_000).

  The source is a TypeScript program that exposes seven remote-browser tools
  over a tool-calling protocol.  We embed it shallowly:

  * All interactions with the outside world (the provisioning HTTP endpoint,
    the puppeteer driver) are collected in a `World` record of response
    functions; the program's mutable module state (the default session slot,
    the `browsers` map, the `screenshots` map) is a `ServerState` record that
    is threaded explicitly.  A thrown JS exception is `Except.error`.
  * `ServerState.fetchCalls` instruments the number of provisioning HTTP
    round-trips actually issued (incremented exactly where the source calls
    `fetch`, inside `createNewBrowserSession`), and
    `ServerState.listChanged` counts emitted list_changed events.
  * JS values appearing in the provisioning payload are modelled by `Json`
    with JS truthiness; machine-level details (floats, undefined vs null) are
    collapsed where the source only tests truthiness or strict equality
    with 200, and the one throwing property access — `data.code` on a null
    payload — is modelled explicitly in `getBrowserUrl`.
  * The pure text pipeline of `cloudbrowser_get_text` (split / trim / CSS
    filter / unicode unescape / join) is translated regex-by-regex into
    character-list functions.
-/

namespace CloudBrowser

/-! ## JSON values (the provisioning payload) -/

/-- JSON values as delivered by `response.json()`.  JS `undefined` resulting
from a missing property is collapsed into `null` (the source only tests
truthiness and strict equality with the number 200 on these values). -/
inductive Json where
  | null
  | bool (b : Bool)
  | num (n : Int)
  | str (s : String)
  | arr (elems : List Json)
  | obj (fields : List (String × Json))

/-- JS truthiness of a JSON value ( `if (x)` ). -/
def Json.truthy : Json → Bool
  | .null => false
  | .bool b => b
  | .num n => n != 0
  | .str s => s != ""
  | .arr _ => true
  | .obj _ => true

/-- First binding of a key in a JS object literal. -/
def jsonLookup : List (String × Json) → String → Json
  | [], _ => .null
  | (k', v) :: rest, k => if k' = k then v else jsonLookup rest k

/-- JS property access `x.k` where it does not throw; on a non-object it
yields undefined (here `null`).  The one access the provisioner performs
that can throw — on a `null` payload — is modelled in `getBrowserUrl`. -/
def Json.get : Json → String → Json
  | .obj fields, k => jsonLookup fields k
  | _, _ => .null

/-- Opening brace character, used only to build rendered JSON text. -/
def obrace : String := (Char.ofNat 123).toString

/-- Closing brace character, used only to build rendered JSON text. -/
def cbrace : String := (Char.ofNat 125).toString

mutual

/-- Rendering of a JSON value, modelling `JSON.stringify` (string escaping
and float formatting are not reproduced; no theorem inspects this text). -/
def Json.stringify : Json → String
  | .null => "null"
  | .bool b => cond b "true" "false"
  | .num n => toString n
  | .str s => "\"" ++ s ++ "\""
  | .arr xs => "[" ++ stringifyElems xs ++ "]"
  | .obj fs => obrace ++ stringifyFields fs ++ cbrace

/-- Comma-separated rendering of JSON array elements. -/
def stringifyElems : List Json → String
  | [] => ""
  | [x] => Json.stringify x
  | x :: y :: xs => Json.stringify x ++ "," ++ stringifyElems (y :: xs)

/-- Comma-separated rendering of JSON object fields. -/
def stringifyFields : List (String × Json) → String
  | [] => ""
  | [(k, v)] => "\"" ++ k ++ "\":" ++ Json.stringify v
  | (k, v) :: kv :: fs =>
    "\"" ++ k ++ "\":" ++ Json.stringify v ++ "," ++ stringifyFields (kv :: fs)

end

/-! ## Character and string helpers (JS semantics) -/

/-- JS whitespace class `\s` (also the class trimmed by `String.trim`). -/
def jsWhite (c : Char) : Bool :=
  c.toNat = 9 || c.toNat = 10 || c.toNat = 11 || c.toNat = 12 || c.toNat = 13 ||
  c.toNat = 32 || c.toNat = 160 || c.toNat = 5760 ||
  (8192 ≤ c.toNat && c.toNat ≤ 8202) ||
  c.toNat = 8232 || c.toNat = 8233 || c.toNat = 8239 || c.toNat = 8287 ||
  c.toNat = 12288 || c.toNat = 65279

/-- JS `String.prototype.trim` on a character list. -/
def jsTrim (cs : List Char) : List Char :=
  ((cs.dropWhile jsWhite).reverse.dropWhile jsWhite).reverse

/-- JS `str.split('\n')`. -/
def splitNl : List Char → List (List Char)
  | [] => [[]]
  | c :: rest =>
    if c = '\n' then [] :: splitNl rest
    else
      match splitNl rest with
      | h :: t => (c :: h) :: t
      | [] => [[c]]

/-- JS `arr.join('\n')`. -/
def joinNl : List (List Char) → List Char
  | [] => []
  | [l] => l
  | l :: ls => l ++ '\n' :: joinNl ls

/-- True when `pat` occurs at the front of `s` (used for JS `startsWith`). -/
def leadsWith : List Char → List Char → Bool
  | [], _ => true
  | _ :: _, [] => false
  | p :: ps, c :: cs => p = c && leadsWith ps cs

/-- JS `str.includes(pat)`: `pat` occurs somewhere in `s`. -/
def containsSeq (pat : List Char) : List Char → Bool
  | [] => pat.isEmpty
  | c :: rest => leadsWith pat (c :: rest) || containsSeq pat rest

/-- The separator `://` occurs somewhere in the list. -/
def hasSep : List Char → Bool
  | c :: d :: e :: rest => (c = ':' && d = '/' && e = '/') || hasSep (d :: e :: rest)
  | _ => false

/-- JS `str.split("://")`: non-overlapping, left-to-right. -/
def splitUrlSep : List Char → List (List Char)
  | c :: d :: e :: rest =>
    if c = ':' && d = '/' && e = '/' then [] :: splitUrlSep rest
    else
      match splitUrlSep (d :: e :: rest) with
      | h :: t => (c :: h) :: t
      | [] => [[c]]
  | cs => [cs]

/-- Characters of the list up to (excluding) the first occurrence of `://`;
the whole list when it has no occurrence. -/
def beforeSep : List Char → List Char
  | c :: d :: e :: rest =>
    if c = ':' && d = '/' && e = '/' then [] else c :: beforeSep (d :: e :: rest)
  | cs => cs

/-- Characters of the list after the first occurrence of `://`. -/
def afterSep : List Char → List Char
  | c :: d :: e :: rest =>
    if c = ':' && d = '/' && e = '/' then rest else afterSep (d :: e :: rest)
  | _ => []

/-! ## The get_text filter pipeline (source lines 351-396) -/

/-- Character class `[a-zA-Z0-9_-]` of the class-selector regex. -/
def isClassChar (c : Char) : Bool :=
  c.isAlpha || c.isDigit || c = '_' || c = '-'

/-- JS regex test `/^\.[a-zA-Z0-9_-]+\s*{/` (a CSS class selector opening).
The three character classes involved are pairwise disjoint, so greedy
matching is deterministic and this direct translation is exact. -/
def matchesClassSel (cs : List Char) : Bool :=
  match cs with
  | '.' :: rest =>
    !(rest.takeWhile isClassChar).isEmpty &&
      (match (rest.dropWhile isClassChar).dropWhile jsWhite with
       | c :: _ => c = Char.ofNat 123
       | [] => false)
  | _ => false

/-- Character class `[a-zA-Z-]` (CSS property name). -/
def isPropChar (c : Char) : Bool := c.isAlpha || c = '-'

/-- Character class `[a-zA-Z0-9%\s\(\)\.,-]` (CSS declaration value). -/
def isValChar (c : Char) : Bool :=
  c.isAlpha || c.isDigit || c = '%' || jsWhite c || c = '(' || c = ')' ||
  c = '.' || c = ',' || c = '-'

/-- JS regex test `/^[a-zA-Z-]+:[a-zA-Z0-9%\s\(\)\.,-]+;$/` (a bare
`property: value;` CSS declaration).  Both classes exclude `:` and `;`, so
greedy matching is deterministic; the input lines never contain `'\n'`, so
`$` is end-of-string. -/
def matchesDecl (cs : List Char) : Bool :=
  !(cs.takeWhile isPropChar).isEmpty &&
    (match cs.dropWhile isPropChar with
     | ':' :: rest =>
       !(rest.takeWhile isValChar).isEmpty && rest.dropWhile isValChar = [';']
     | _ => false)

/-- Hex digit class `[0-9a-fA-F]`. -/
def isHexDigit (c : Char) : Bool :=
  c.isDigit || ('a' ≤ c && c ≤ 'f') || ('A' ≤ c && c ≤ 'F')

/-- Numeric value of a hex digit. -/
def hexVal (c : Char) : Nat :=
  if c.isDigit then c.toNat - 48
  else if 'a' ≤ c then c.toNat - 87
  else c.toNat - 55

/-- Fuel-indexed global replacement of `/\\u([0-9a-fA-F]{4})/g` by
`String.fromCharCode(parseInt(hex, 16))`, scanning left to right exactly as
the JS regex engine does.  (A code unit in the surrogate range, invalid as a
Lean `Char`, is mapped to NUL by `Char.ofNat`; no claim involves one.) -/
def unescapeAux : Nat → List Char → List Char
  | 0, cs => cs
  | _ + 1, [] => []
  | fuel + 1, '\\' :: 'u' :: h1 :: h2 :: h3 :: h4 :: rest =>
    if isHexDigit h1 && isHexDigit h2 && isHexDigit h3 && isHexDigit h4 then
      Char.ofNat (((hexVal h1 * 16 + hexVal h2) * 16 + hexVal h3) * 16 + hexVal h4) ::
        unescapeAux fuel rest
    else '\\' :: unescapeAux fuel ('u' :: h1 :: h2 :: h3 :: h4 :: rest)
  | fuel + 1, c :: rest => c :: unescapeAux fuel rest

/-- Global `\uXXXX` unescaping of one line. -/
def unescapeChars (cs : List Char) : List Char := unescapeAux cs.length cs

/-- The filter predicate of the get_text pipeline: a (trimmed) line is kept
when it is non-empty and looks like none of the four CSS patterns
(source lines 357-369). -/
def lineKept (cs : List Char) : Bool :=
  !cs.isEmpty &&
  !((cs.contains (Char.ofNat 123) && cs.contains (Char.ofNat 125)) ||
    containsSeq "@keyframes".data cs ||
    matchesClassSel cs ||
    matchesDecl cs)

/-- The lines of the get_text result: split on newlines, trim, filter,
unescape (source lines 354-374). -/
def getTextLines (raw : List Char) : List (List Char) :=
  (((splitNl raw).map jsTrim).filter lineKept).map unescapeChars

/-- The joined get_text result text (before the `Extracted content:` label). -/
def getTextContent (bodyText : String) : String :=
  String.mk (joinNl (getTextLines bodyText.data))

/-! ## Association-list model of a JS `Map` with string keys -/

/-- JS `Map.prototype.set`: overwrite in place, else append (JS Maps iterate in
insertion order and keep the original position on overwrite). -/
def mapSet {α : Type} (m : List (String × α)) (k : String) (v : α) :
    List (String × α) :=
  match m with
  | [] => [(k, v)]
  | (k', v') :: rest => if k' = k then (k, v) :: rest else (k', v') :: mapSet rest k v

/-- JS `Map.prototype.get`. -/
def mapGet {α : Type} (m : List (String × α)) (k : String) : Option α :=
  match m with
  | [] => none
  | (k', v') :: rest => if k' = k then some v' else mapGet rest k

/-! ## Global state and the outside world -/

/-- A connected browser plus its selected page (`{ browser, page }`); the
handles are abstract identifiers. -/
structure Session where
  browser : Nat
  page : Nat
deriving DecidableEq

/-- The module-level mutable state of the server, plus two instrumentation
counters observing outbound effects. -/
structure ServerState where
  /-- the `defaultBrowserSession` slot (source line 33). -/
  defaultBrowserSession : Option Session
  /-- the `browsers` map (source line 29). -/
  browsers : List (String × Session)
  /-- the `screenshots` map (source line 30). -/
  screenshots : List (String × String)
  /-- number of provisioning HTTP requests issued so far (instrumentation). -/
  fetchCalls : Nat
  /-- number of resources/list_changed events emitted so far (instrumentation). -/
  listChanged : Nat
deriving DecidableEq

/-- Outcome of the provisioning `fetch` (a thrown transport or JSON-parse
error, or an HTTP response with a status and a parsed JSON body). -/
inductive FetchOutcome where
  | netError (msg : String)
  | response (status : Nat) (body : Json)

/-- Responses of the outside world to each effectful call the server makes.
`connect` covers `puppeteer.connect` plus taking `(await browser.pages())[0]`;
`probe` is `page.evaluate(() => document.title)`; `innerText` is
`page.evaluate(() => document.body.innerText)`. -/
structure World where
  fetchOutcome : FetchOutcome
  connect : Json → Except String Session
  probe : Session → Except String Unit
  goto : Session → String → Except String Unit
  evalScript : Session → String → Except String String
  currentUrl : Session → String
  screenshot : Session → Except String String
  click : Session → String → Except String Unit
  waitForSelector : Session → String → Except String Unit
  typeText : Session → String → String → Except String Unit
  innerText : Session → Except String String
  /-- value of `process.env.SESSION_ID` (key under which `browsers` is set). -/
  sessionIdEnv : String

/-- The constant of source line 34 (shadowed inside the helper functions and
otherwise unused). -/
def sessionId : String := "default"

/-! ## Remote session provisioner (source lines 58-90) -/

/-- Fetch-standard `response.ok`: status in the 2xx range. -/
def fetchOk (status : Nat) : Bool := decide (200 ≤ status ∧ status ≤ 299)

/-- JS strict equality `x === 200`: true only for the number 200. -/
def isNum200 : Json → Bool
  | .num n => n == 200
  | _ => false

/-- The TypeError thrown by `data.code` when the parsed JSON body is `null`
(source line 81).  Its exact text is engine-specific and carries no response
body; it is modelled as this fixed string. -/
def nullCodeAccessError : String := "TypeError: Cannot read properties of null"

/-- Model of `getBrowserUrl` (source lines 58-90): one fetch; non-2xx throws
`HTTP error! status: ...`; then `data.code === 200 && data.data &&
data.data.browserUrl` guards returning `data.data.browserUrl`, else it
throws with the rendered response body.  A `null` body throws a TypeError
at the very first property access `data.code` — the only throwing access:
on a non-null `data` every access yields at worst undefined, and
`data.data.browserUrl` is reached only when `data.data` is truthy.  The
catch block only logs and rethrows, so it is the identity on the result. -/
def getBrowserUrl (w : World) : Except String Json :=
  match w.fetchOutcome with
  | .netError m => .error m
  | .response status body =>
    if fetchOk status then
      match body with
      | .null => .error nullCodeAccessError
      | _ =>
        if isNum200 (body.get "code") && (body.get "data").truthy &&
            ((body.get "data").get "browserUrl").truthy then
          .ok ((body.get "data").get "browserUrl")
        else
          .error ("Failed to get browserUrl. Response: " ++ body.stringify)
    else
      .error ("HTTP error! status: " ++ toString status)

/-- Model of `createNewBrowserSession` (source lines 92-104): fetch the endpoint
(the one provisioning round-trip, counted), connect and take the first page,
record the session in `browsers`, return it.  Any throw propagates and
leaves `browsers` unchanged. -/
def createNewBrowserSession (w : World) (st : ServerState) :
    Except String Session × ServerState :=
  match getBrowserUrl w with
  | .error e => (.error e, { st with fetchCalls := st.fetchCalls + 1 })
  | .ok connectUrl =>
    match w.connect connectUrl with
    | .error e => (.error e, { st with fetchCalls := st.fetchCalls + 1 })
    | .ok sess =>
      (.ok sess, { st with fetchCalls := st.fetchCalls + 1,
                           browsers := mapSet st.browsers w.sessionIdEnv sess })

/-- Model of `ensureBrowserSession` (source lines 37-55): create and store a session
when the slot is empty; otherwise run the liveness probe and return the held
session.  The surrounding try/catch only rethrows. -/
def ensureBrowserSession (w : World) (st : ServerState) :
    Except String Session × ServerState :=
  match st.defaultBrowserSession with
  | none =>
    match createNewBrowserSession w st with
    | (.error e, st1) => (.error e, st1)
    | (.ok sess, st1) => (.ok sess, { st1 with defaultBrowserSession := some sess })
  | some sess =>
    match w.probe sess with
    | .error e => (.error e, st)
    | .ok _ => (.ok sess, st)

/-! ## Tool registry (source lines 107-190) -/

/-- One property of an input schema: name, declared type, optional
description text. -/
structure PropSpec where
  propName : String
  propType : String
  propDesc : Option String := none
deriving DecidableEq

/-- A tool's input schema; `required := none` models the absence of the
`required` field in the source object literal. -/
structure InputSchema where
  schemaType : String := "object"
  properties : List PropSpec
  required : Option (List String) := none
deriving DecidableEq

/-- A tool descriptor. -/
structure Tool where
  name : String
  description : String
  inputSchema : InputSchema
deriving DecidableEq

/-- The `TOOLS` constant (source lines 107-190), field for field. -/
def TOOLS : List Tool := [
  { name := "cloudbrowser_navigate",
    description := "Navigate to a URL",
    inputSchema := { properties := [⟨"url", "string", none⟩], required := some ["url"] } },
  { name := "cloudbrowser_evaluate",
    description := "Evaluate JavaScript in the browser",
    inputSchema := { properties := [⟨"script", "string", none⟩], required := some ["script"] } },
  { name := "cloudbrowser_get_current_url",
    description := "Retrieve the current URL of the browser page",
    inputSchema := { properties := [], required := none } },
  { name := "cloudbrowser_screenshot",
    description := "Takes a screenshot of the current page. Use this tool to learn where you are on the page when controlling the browser with Stagehand. Only use this tool when the other tools are not sufficient to get the information you need.",
    inputSchema := { properties := [⟨"name", "string", some "Name of the screenshot"⟩],
                     required := none } },
  { name := "cloudbrowser_click",
    description := "Click an element on the page",
    inputSchema := { properties := [⟨"selector", "string", some "CSS selector for element to click"⟩],
                     required := some ["selector"] } },
  { name := "cloudbrowser_fill",
    description := "Fill out an input field",
    inputSchema := { properties := [⟨"selector", "string", some "CSS selector for input field"⟩,
                                    ⟨"value", "string", some "Value to fill"⟩],
                     required := some ["selector", "value"] } },
  { name := "cloudbrowser_get_text",
    description := "Extract all text content from the current page",
    inputSchema := { properties := [], required := some [] } }
]

/-- The ListTools request handler (source lines 474-476) returns `TOOLS`
verbatim. -/
def listTools : List Tool := TOOLS

/-- The seven registered tool names. -/
def toolNames : List String := TOOLS.map Tool.name

/-! ## Tool dispatcher (source lines 193-424) -/

/-- One item of a tool result: a text block or a base64 image. -/
inductive ContentItem where
  | text (text : String)
  | image (data : String) (mimeType : String)
deriving DecidableEq

/-- The uniform tool result envelope `{ content, isError }`. -/
structure CallToolResult where
  content : List ContentItem
  isError : Bool
deriving DecidableEq

/-- An envelope holding a single text item. -/
def textResult (msg : String) (isErr : Bool) : CallToolResult :=
  { content := [ContentItem.text msg], isError := isErr }

/-- The argument object of a tool call.  The source reads the five fields
`url`, `script`, `name`, `selector`, `value` off an untyped object; a field
the caller omitted defaults here to `""`. -/
structure ToolArgs where
  url : String := ""
  script : String := ""
  name : String := ""
  selector : String := ""
  value : String := ""
deriving DecidableEq

/-- The switch statement of `handleToolCall` (source lines 207-408), with the
ensured session in scope.  `Except.error` is an exception escaping to the
outer catch; branches with their own try/catch return error envelopes
directly. -/
def dispatchTool (name : String) (args : ToolArgs) (w : World) (sess : Session)
    (st : ServerState) : Except String CallToolResult × ServerState :=
  if name = "cloudbrowser_navigate" then
    match w.goto sess args.url with
    | .error e => (.error e, st)
    | .ok _ => (.ok (textResult ("Navigated to " ++ args.url) false), st)
  else if name = "cloudbrowser_evaluate" then
    match w.evalScript sess args.script with
    | .ok res => (.ok (textResult ("Evaluated script: " ++ res) false), st)
    | .error e =>
      (.ok (textResult ("Failed to Evaluated script: " ++ args.script ++ ": " ++ e) true), st)
  else if name = "cloudbrowser_get_current_url" then
    (.ok (textResult ("Current URL: " ++ w.currentUrl sess) false), st)
  else if name = "cloudbrowser_screenshot" then
    match w.screenshot sess with
    | .error e => (.error e, st)
    | .ok shot =>
      if shot = "" then (.ok (textResult "Screenshot failed" true), st)
      else
        (.ok { content := [ContentItem.text "Screenshot taken",
                           ContentItem.image shot "image/png"],
               isError := false },
         { st with screenshots := mapSet st.screenshots args.name shot,
                   listChanged := st.listChanged + 1 })
  else if name = "cloudbrowser_click" then
    match w.click sess args.selector with
    | .ok _ => (.ok (textResult ("Clicked: " ++ args.selector) false), st)
    | .error e =>
      (.ok (textResult ("Failed to click " ++ args.selector ++ ": " ++ e) true), st)
  else if name = "cloudbrowser_fill" then
    match w.waitForSelector sess args.selector with
    | .error e =>
      (.ok (textResult ("Failed to fill " ++ args.selector ++ ": " ++ e) true), st)
    | .ok _ =>
      match w.typeText sess args.selector args.value with
      | .error e =>
        (.ok (textResult ("Failed to fill " ++ args.selector ++ ": " ++ e) true), st)
      | .ok _ =>
        (.ok (textResult ("Filled " ++ args.selector ++ " with: " ++ args.value) false), st)
  else if name = "cloudbrowser_get_text" then
    match w.innerText sess with
    | .error e => (.ok (textResult ("Failed to extract content: " ++ e) true), st)
    | .ok bodyText =>
      (.ok (textResult ("Extracted content:\n" ++ getTextContent bodyText) false), st)
  else
    (.ok (textResult ("Unknown tool: " ++ name) true), st)

/-- The try block of `handleToolCall` (source lines 197-408): every name
other than `"cloudbrowser_create_session"` first ensures a session (a throw
escapes); `"cloudbrowser_create_session"` skips the session check and, having
no case of its own, lands in the default (unknown tool) branch. -/
def handleToolCallBody (name : String) (args : ToolArgs) (w : World)
    (st : ServerState) : Except String CallToolResult × ServerState :=
  if name = "cloudbrowser_create_session" then
    (.ok (textResult ("Unknown tool: " ++ name) true), st)
  else
    match ensureBrowserSession w st with
    | (.error e, st1) => (.error e, st1)
    | (.ok sess, st1) => dispatchTool name args w sess st1

/-- Model of `handleToolCall` (source lines 193-424): the outer catch converts any
escaping exception into a uniform error envelope (and logs it, an effect not
modelled). -/
def handleToolCall (name : String) (args : ToolArgs) (w : World)
    (st : ServerState) : CallToolResult × ServerState :=
  match handleToolCallBody name args w st with
  | (.error e, st1) => (textResult ("Failed to handle tool call: " ++ e) true, st1)
  | (.ok r, st1) => (r, st1)

/-! ## Resource catalog handlers (source lines 441-472) -/

/-- One entry of the ListResources response. -/
structure ResourceEntry where
  uri : String
  mimeType : String
  name : String
deriving DecidableEq

/-- One block of a ReadResource response. -/
structure ResourceContents where
  uri : String
  mimeType : String
  blob : String
deriving DecidableEq

/-- The ListResources handler (source lines 441-449): one entry per stored
screenshot, in map iteration order. -/
def listResources (st : ServerState) : List ResourceEntry :=
  st.screenshots.map fun kv =>
    { uri := "screenshot://" ++ kv.1, mimeType := "image/png",
      name := "Screenshot: " ++ kv.1 }

/-- The name a ReadResource request looks up: `uri.split("://")[1]`
(source line 456). -/
def readResourceKey (uri : String) : String :=
  String.mk ((splitUrlSep uri.data).getD 1 [])

/-- The ReadResource handler (source lines 451-472): a `screenshot://` URI is
split on every `://` and the second segment is looked up; any miss or foreign
scheme throws `Resource not found`. -/
def readResource (st : ServerState) (uri : String) : Except String ResourceContents :=
  if leadsWith "screenshot://".data uri.data then
    match mapGet st.screenshots (readResourceKey uri) with
    | some shot => .ok { uri := uri, mimeType := "image/png", blob := shot }
    | none => .error ("Resource not found: " ++ uri)
  else
    .error ("Resource not found: " ++ uri)

/-! ## Concrete fixtures for witnesses and counterexamples -/

/-- A sample session handle. -/
def session0 : Session := { browser := 0, page := 0 }

/-- The state at process start: no session, empty maps. -/
def initState : ServerState :=
  { defaultBrowserSession := none, browsers := [], screenshots := [],
    fetchCalls := 0, listChanged := 0 }

/-- A state holding a live session. -/
def aliveState : ServerState :=
  { initState with defaultBrowserSession := some session0 }

/-- A well-formed provisioning payload. -/
def okBody : Json :=
  Json.obj [("code", Json.num 200),
            ("data", Json.obj [("browserUrl", Json.str "ws://b")])]

/-- A world in which every remote call succeeds. -/
def okWorld : World :=
  { fetchOutcome := .response 200 okBody,
    connect := fun _ => .ok session0,
    probe := fun _ => .ok (),
    goto := fun _ _ => .ok (),
    evalScript := fun _ _ => .ok "2",
    currentUrl := fun _ => "https://example.com",
    screenshot := fun _ => .ok "IMG",
    click := fun _ _ => .ok (),
    waitForSelector := fun _ _ => .ok (),
    typeText := fun _ _ _ => .ok (),
    innerText := fun _ => .ok "",
    sessionIdEnv := "sid" }

/-- A world whose provisioning fetch fails at the transport level. -/
def badFetchWorld : World := { okWorld with fetchOutcome := .netError "boom" }

/-- A world whose liveness probe throws. -/
def badProbeWorld : World := { okWorld with probe := fun _ => .error "dead" }

/-- A world answering with a 2xx response whose payload has the claimed
shape `code: 200, data.browserUrl: <string>` but with the empty string. -/
def emptyUrlWorld : World :=
  { okWorld with
    fetchOutcome := .response 200
      (Json.obj [("code", Json.num 200),
                 ("data", Json.obj [("browserUrl", Json.str "")])]) }

/-- The state after a failed provisioning attempt from `initState`:
one fetch issued, slot still empty. -/
def failedProvisionState : ServerState := { initState with fetchCalls := 1 }

/-- The state after a successful provisioning round-trip from `initState`
against `okWorld`. -/
def okProvisionState : ServerState :=
  { defaultBrowserSession := some session0, browsers := [("sid", session0)],
    screenshots := [], fetchCalls := 1, listChanged := 0 }

/-- A catalog holding screenshots named `a` and `a://b` (reachable by two
screenshot tool calls). -/
def twoShotState : ServerState :=
  { aliveState with screenshots := [("a", "B1"), ("a://b", "B2")] }

/-- A catalog holding only a screenshot named `a://b`. -/
def oneShotState : ServerState :=
  { aliveState with screenshots := [("a://b", "B2")] }

/-- Evaluates to `true` exactly on a successful provisioning result (used to state the
C7 counterexample without fixing the error text). -/
def provisionOk : Except String Json → Bool
  | .ok _ => true
  | .error _ => false

end CloudBrowser


namespace CloudBrowser

/-! ## Lemmas about the `://` splitter -/

/-- Unfolding of `hasSep` on a list of length at least three. -/
theorem hasSep_cons3 (c d e : Char) (r : List Char) :
    hasSep (c :: d :: e :: r) =
      ((c = ':' && d = '/' && e = '/') || hasSep (d :: e :: r)) := rfl

/-- Unfolding of `splitUrlSep` on a list of length at least three. -/
theorem splitUrlSep_cons3 (c d e : Char) (r : List Char) :
    splitUrlSep (c :: d :: e :: r) =
      if c = ':' && d = '/' && e = '/' then [] :: splitUrlSep r
      else
        match splitUrlSep (d :: e :: r) with
        | h :: t => (c :: h) :: t
        | [] => [[c]] := rfl

/-- Unfolding of `beforeSep` on a list of length at least three. -/
theorem beforeSep_cons3 (c d e : Char) (r : List Char) :
    beforeSep (c :: d :: e :: r) =
      if c = ':' && d = '/' && e = '/' then [] else c :: beforeSep (d :: e :: r) := rfl

/-- Unfolding of `afterSep` on a list of length at least three. -/
theorem afterSep_cons3 (c d e : Char) (r : List Char) :
    afterSep (c :: d :: e :: r) =
      if c = ':' && d = '/' && e = '/' then r else afterSep (d :: e :: r) := rfl

/-- A list without `://` whose head is dropped still has no `://`. -/
theorem hasSep_tail {c : Char} {t : List Char} (h : hasSep (c :: t) = false) :
    hasSep t = false := by
  match t with
  | [] => rfl
  | [d] => rfl
  | d :: e :: r =>
    rw [hasSep_cons3] at h
    exact (Bool.or_eq_false_iff.mp h).2

/-- A list is its own single split segment when it has no `://`. -/
theorem splitUrlSep_eq_self : ∀ {cs : List Char}, hasSep cs = false →
    splitUrlSep cs = [cs] := by
  intro cs h
  induction cs with
  | nil => rfl
  | cons c t ih =>
    rcases t with _ | ⟨d, t2⟩
    · rfl
    · rcases t2 with _ | ⟨e, r⟩
      · rfl
      · rw [hasSep_cons3] at h
        obtain ⟨hcond, htail⟩ := Bool.or_eq_false_iff.mp h
        rw [splitUrlSep_cons3, if_neg (by simp [hcond]), ih htail]

/-- Splitting a list of the form `p ++ "://" ++ q` where `p` is `://`-free
peels off `p` as the first segment. -/
theorem splitUrlSep_append : ∀ {p : List Char} (q : List Char),
    hasSep p = false →
    splitUrlSep (p ++ ':' :: '/' :: '/' :: q) = p :: splitUrlSep q := by
  intro p q h
  induction p with
  | nil =>
    rw [List.nil_append, splitUrlSep_cons3, if_pos (by simp)]
  | cons c p' ih =>
    have hp' : hasSep p' = false := hasSep_tail h
    rcases p' with _ | ⟨d, p2⟩
    · rw [List.cons_append, List.nil_append, splitUrlSep_cons3]
      rw [if_neg (by simp), splitUrlSep_cons3, if_pos (by simp)]
    · rcases p2 with _ | ⟨e, p3⟩
      · rw [List.cons_append, List.cons_append, List.nil_append, splitUrlSep_cons3]
        rw [if_neg (by simp)]
        have hd : splitUrlSep ([d] ++ ':' :: '/' :: '/' :: q) = [d] :: splitUrlSep q :=
          ih hp'
        rw [List.cons_append, List.nil_append] at hd
        rw [hd]
      · rw [hasSep_cons3] at h
        obtain ⟨hcond, _⟩ := Bool.or_eq_false_iff.mp h
        have hrec := ih hp'
        simp only [List.cons_append] at hrec ⊢
        rw [splitUrlSep_cons3, if_neg (by simp [hcond]), hrec]

/-- A list leads with itself. -/
theorem leadsWith_self : ∀ (p : List Char), leadsWith p p = true := by
  intro p
  induction p with
  | nil => rfl
  | cons c t ih => simp [leadsWith, ih]

/-- A list leads with any of its front segments. -/
theorem leadsWith_append : ∀ (p q : List Char), leadsWith p (p ++ q) = true := by
  intro p q
  induction p with
  | nil => rfl
  | cons c t ih => simp [leadsWith, ih]

/-- The list `beforeSep cs` is a front segment of `cs`. -/
theorem beforeSep_leadsWith : ∀ (cs : List Char), leadsWith (beforeSep cs) cs = true := by
  intro cs
  induction cs with
  | nil => rfl
  | cons c t ih =>
    rcases t with _ | ⟨d, t2⟩
    · simp [beforeSep, leadsWith_self]
    · rcases t2 with _ | ⟨e, r⟩
      · simp [beforeSep, leadsWith_self]
      · rw [beforeSep_cons3]
        by_cases hc : (decide (c = ':') && decide (d = '/') && decide (e = '/')) = true
        · rw [if_pos hc]; rfl
        · rw [if_neg hc]
          simp [leadsWith, ih]

/-- A `://`-containing list decomposes as its part before the first `://`,
the separator, and the rest; the part before is `://`-free. -/
theorem beforeSep_spec : ∀ {cs : List Char}, hasSep cs = true →
    cs = beforeSep cs ++ ':' :: '/' :: '/' :: afterSep cs ∧
    hasSep (beforeSep cs) = false := by
  intro cs h
  induction cs with
  | nil => simp [hasSep] at h
  | cons c t ih =>
    rcases t with _ | ⟨d, t2⟩
    · simp [hasSep] at h
    · rcases t2 with _ | ⟨e, r⟩
      · simp [hasSep] at h
      · rw [hasSep_cons3] at h
        by_cases hc : (decide (c = ':') && decide (d = '/') && decide (e = '/')) = true
        · obtain ⟨hc1', hc2', hc3'⟩ : c = ':' ∧ d = '/' ∧ e = '/' := by
            simpa [Bool.and_eq_true, and_assoc] using hc
          subst hc1'; subst hc2'; subst hc3'
          constructor
          · rw [beforeSep_cons3, if_pos (by simp), afterSep_cons3, if_pos (by simp)]
            rfl
          · rw [beforeSep_cons3, if_pos (by simp)]
            rfl
        · have ht : hasSep (d :: e :: r) = true := by
            rcases Bool.or_eq_true_iff.mp h with h1 | h2
            · exact absurd h1 hc
            · exact h2
          obtain ⟨ihEq, ihNo⟩ := ih ht
          have hcF : (decide (c = ':') && decide (d = '/') && decide (e = '/')) = false :=
            Bool.eq_false_iff.mpr hc
          have hb : beforeSep (c :: d :: e :: r) = c :: beforeSep (d :: e :: r) := by
            rw [beforeSep_cons3, if_neg hc]
          have ha : afterSep (c :: d :: e :: r) = afterSep (d :: e :: r) := by
            rw [afterSep_cons3, if_neg hc]
          constructor
          · rw [hb, ha, List.cons_append, ← ihEq]
          · rw [hb]
            rcases hbt : beforeSep (d :: e :: r) with _ | ⟨x, bt2⟩
            · rfl
            · rcases bt2 with _ | ⟨y, bt3⟩
              · rfl
              · have hlead := beforeSep_leadsWith (d :: e :: r)
                rw [hbt] at hlead
                obtain ⟨hxd, hye, -⟩ :
                    x = d ∧ y = e ∧ leadsWith bt3 r = true := by
                  simpa [leadsWith, Bool.and_eq_true] using hlead
                subst hxd; subst hye
                rw [hbt] at ihNo
                rw [hasSep_cons3]
                exact Bool.or_eq_false_iff.mpr ⟨hcF, ihNo⟩

/-! ## Lemmas about the map model -/

/-- Reading back the key just written returns the new value. -/
theorem mapGet_mapSet_self {α : Type} (m : List (String × α)) (k : String) (v : α) :
    mapGet (mapSet m k v) k = some v := by
  induction m with
  | nil => simp [mapSet, mapGet]
  | cons kv rest ih =>
    rcases kv with ⟨k', v'⟩
    unfold mapSet
    by_cases hk : k' = k
    · rw [if_pos hk]; simp [mapGet]
    · rw [if_neg hk]; unfold mapGet; rw [if_neg hk]; exact ih

/-- After a write, some entry with the written key is in the map. -/
theorem exists_mem_mapSet {α : Type} (m : List (String × α)) (k : String) (v : α) :
    ∃ v', (k, v') ∈ mapSet m k v := by
  induction m with
  | nil => exact ⟨v, by simp [mapSet]⟩
  | cons kv rest ih =>
    rcases kv with ⟨k', v'⟩
    unfold mapSet
    by_cases hk : k' = k
    · rw [if_pos hk]; exact ⟨v, List.mem_cons_self _ _⟩
    · rw [if_neg hk]
      obtain ⟨v2, hv2⟩ := ih
      exact ⟨v2, List.mem_cons_of_mem _ hv2⟩

/-! ## Lemmas about the session holder -/

/-- Creating a session always issues exactly one provisioning fetch. -/
theorem create_fetchCalls (w : World) (st : ServerState) :
    (createNewBrowserSession w st).2.fetchCalls = st.fetchCalls + 1 := by
  rcases hU : getBrowserUrl w with e | url
  · simp [createNewBrowserSession, hU]
  · rcases hC : w.connect url with e | sess <;>
      simp [createNewBrowserSession, hU, hC]

/-- Creating a session never touches the session slot. -/
theorem create_slot (w : World) (st : ServerState) :
    (createNewBrowserSession w st).2.defaultBrowserSession = st.defaultBrowserSession := by
  rcases hU : getBrowserUrl w with e | url
  · simp [createNewBrowserSession, hU]
  · rcases hC : w.connect url with e | sess <;>
      simp [createNewBrowserSession, hU, hC]

/-- A successful `createNewBrowserSession` means the endpoint fetch and the
browser connection (with page selection) both succeeded, on that session. -/
theorem create_ok_provisioned (w : World) (st : ServerState) (sess : Session)
    (st1 : ServerState) (h : createNewBrowserSession w st = (.ok sess, st1)) :
    ∃ url, getBrowserUrl w = .ok url ∧ w.connect url = .ok sess := by
  rcases hU : getBrowserUrl w with e | url
  · rw [createNewBrowserSession, hU] at h
    injection h with h1 _
    injection h1
  · rcases hC : w.connect url with e | s2
    · rw [createNewBrowserSession, hU] at h
      simp only [hC] at h
      injection h with h1 _
      injection h1
    · rw [createNewBrowserSession, hU] at h
      simp only [hC] at h
      injection h with h1 _
      injection h1 with h1
      exact ⟨url, rfl, by rw [hC, h1]⟩

/-- A failing ensure from an empty slot leaves the slot empty and is exactly
a failing provisioning attempt. -/
theorem ensure_none_error (w : World) (st : ServerState) (e : String)
    (st1 : ServerState) (h0 : st.defaultBrowserSession = none)
    (h : ensureBrowserSession w st = (.error e, st1)) :
    st1.defaultBrowserSession = none ∧ createNewBrowserSession w st = (.error e, st1) := by
  unfold ensureBrowserSession at h
  rw [h0] at h
  rcases hC : createNewBrowserSession w st with ⟨cr, st2⟩
  rw [hC] at h
  cases cr with
  | error e2 =>
    injection h with h1 h2
    injection h1 with h1
    subst h1; subst h2
    have hs := create_slot w st
    rw [hC, h0] at hs
    exact ⟨hs, rfl⟩
  | ok s =>
    injection h with h1 _
    injection h1

/-- A successful ensure from an empty slot stores exactly the freshly and
fully provisioned session. -/
theorem ensure_none_ok (w : World) (st : ServerState) (sess : Session)
    (st1 : ServerState) (h0 : st.defaultBrowserSession = none)
    (h : ensureBrowserSession w st = (.ok sess, st1)) :
    st1.defaultBrowserSession = some sess ∧
    ∃ url, getBrowserUrl w = .ok url ∧ w.connect url = .ok sess := by
  unfold ensureBrowserSession at h
  rw [h0] at h
  rcases hC : createNewBrowserSession w st with ⟨cr, st2⟩
  rw [hC] at h
  cases cr with
  | error e2 =>
    injection h with h1 _
    injection h1
  | ok s =>
    injection h with h1 h2
    injection h1 with h1
    constructor
    · rw [← h2]; simp [h1]
    · rw [← h1]; exact create_ok_provisioned w st s st2 hC

/-- Ensure with a live slot and a succeeding probe returns the held session
and leaves the state untouched. -/
theorem ensure_alive_ok (w : World) (st : ServerState) (sess : Session)
    (h0 : st.defaultBrowserSession = some sess) (hp : w.probe sess = .ok ()) :
    ensureBrowserSession w st = (.ok sess, st) := by
  simp only [ensureBrowserSession, h0, hp]

/-- Ensure with a live slot and a throwing probe rethrows the probe failure
and leaves the state untouched. -/
theorem ensure_alive_error (w : World) (st : ServerState) (sess : Session)
    (e : String) (h0 : st.defaultBrowserSession = some sess)
    (hp : w.probe sess = .error e) :
    ensureBrowserSession w st = (.error e, st) := by
  simp only [ensureBrowserSession, h0, hp]

/-- Ensure from an empty slot issues exactly one provisioning fetch. -/
theorem ensure_fetch_none (w : World) (st : ServerState)
    (h0 : st.defaultBrowserSession = none) :
    (ensureBrowserSession w st).2.fetchCalls = st.fetchCalls + 1 := by
  unfold ensureBrowserSession
  rw [h0]
  rcases hC : createNewBrowserSession w st with ⟨cr, st2⟩
  have hf := create_fetchCalls w st
  rw [hC] at hf
  cases cr <;> simpa using hf

/-! ## Lemmas about the tool dispatcher -/

/-- A single-text envelope is non-empty, and when it is an error envelope it
carries exactly one text payload. -/
theorem textResult_good (msg : String) (b : Bool) :
    (textResult msg b).content ≠ [] ∧
    ((textResult msg b).isError = true →
      ∃ m, (textResult msg b).content = [ContentItem.text m]) :=
  ⟨by simp [textResult], fun _ => ⟨msg, rfl⟩⟩

/-- Every envelope the switch itself returns has non-empty content, and every
error envelope among them is a single human-readable text payload. -/
theorem dispatch_ok_shape (name : String) (args : ToolArgs) (w : World)
    (sess : Session) (st : ServerState) (r : CallToolResult) (st1 : ServerState)
    (h : dispatchTool name args w sess st = (.ok r, st1)) :
    r.content ≠ [] ∧ (r.isError = true → ∃ m, r.content = [ContentItem.text m]) := by
  unfold dispatchTool at h
  split_ifs at h
  all_goals repeat' split at h
  all_goals injection h with h1 h2
  all_goals first
    | (injection h1; done)
    | (injection h1 with h1; subst h1)
  all_goals
    first
      | exact textResult_good _ _
      | exact ⟨by simp, fun hfalse => by simp at hfalse⟩

/-- The switch never changes the provisioning-fetch counter. -/
theorem dispatch_fetchCalls (name : String) (args : ToolArgs) (w : World)
    (sess : Session) (st : ServerState) :
    (dispatchTool name args w sess st).2.fetchCalls = st.fetchCalls := by
  unfold dispatchTool
  repeat' split
  all_goals simp

/-- A name that is none of the seven registered tool names reaches the
default branch of the switch. -/
theorem dispatch_unknown (name : String) (args : ToolArgs) (w : World)
    (sess : Session) (st : ServerState) (h7 : name ∉ toolNames) :
    dispatchTool name args w sess st =
      (.ok (textResult ("Unknown tool: " ++ name) true), st) := by
  have h1 : name ≠ "cloudbrowser_navigate" := by rintro rfl; exact h7 (by decide)
  have h2 : name ≠ "cloudbrowser_evaluate" := by rintro rfl; exact h7 (by decide)
  have h3 : name ≠ "cloudbrowser_get_current_url" := by rintro rfl; exact h7 (by decide)
  have h4 : name ≠ "cloudbrowser_screenshot" := by rintro rfl; exact h7 (by decide)
  have h5 : name ≠ "cloudbrowser_click" := by rintro rfl; exact h7 (by decide)
  have h6 : name ≠ "cloudbrowser_fill" := by rintro rfl; exact h7 (by decide)
  have h8 : name ≠ "cloudbrowser_get_text" := by rintro rfl; exact h7 (by decide)
  unfold dispatchTool
  rw [if_neg h1, if_neg h2, if_neg h3, if_neg h4, if_neg h5, if_neg h6, if_neg h8]

/-- The final envelope and the try-block result always carry the same state. -/
theorem handle_snd (name : String) (args : ToolArgs) (w : World) (st : ServerState) :
    (handleToolCall name args w st).2 = (handleToolCallBody name args w st).2 := by
  unfold handleToolCall
  rcases handleToolCallBody name args w st with ⟨res, st1⟩
  cases res <;> rfl

/-- Every envelope the try block returns has non-empty content, and every
error envelope among them is a single text payload. -/
theorem body_ok_shape (name : String) (args : ToolArgs) (w : World)
    (st : ServerState) (r : CallToolResult) (st1 : ServerState)
    (h : handleToolCallBody name args w st = (.ok r, st1)) :
    r.content ≠ [] ∧ (r.isError = true → ∃ m, r.content = [ContentItem.text m]) := by
  unfold handleToolCallBody at h
  split_ifs at h
  · injection h with h1 h2
    injection h1 with h1
    subst h1
    exact textResult_good _ _
  · rcases hE : ensureBrowserSession w st with ⟨er, st2⟩
    rw [hE] at h
    cases er with
    | error e =>
      injection h with h1 _
      injection h1
    | ok sess => exact dispatch_ok_shape name args w sess st2 r st1 h

/-- For every name except `cloudbrowser_create_session`, the fetch counter
after a tool call is the one left by the session-ensure step. -/
theorem body_fetchCalls (name : String) (args : ToolArgs) (w : World)
    (st : ServerState) (hne : name ≠ "cloudbrowser_create_session") :
    (handleToolCallBody name args w st).2.fetchCalls =
      (ensureBrowserSession w st).2.fetchCalls := by
  unfold handleToolCallBody
  rw [if_neg hne]
  rcases hE : ensureBrowserSession w st with ⟨er, st2⟩
  cases er with
  | error e => rfl
  | ok sess => exact dispatch_fetchCalls name args w sess st2

/-- A `screenshot://` URI whose split-out key is present resolves to the
stored blob. -/
theorem readResource_found (st : ServerState) (uri : String) (blob : String)
    (hlead : leadsWith "screenshot://".data uri.data = true)
    (hget : mapGet st.screenshots (readResourceKey uri) = some blob) :
    readResource st uri =
      .ok { uri := uri, mimeType := "image/png", blob := blob } := by
  unfold readResource
  rw [if_pos hlead, hget]

/-- A `screenshot://` URI whose split-out key is absent throws
Resource not found. -/
theorem readResource_missing (st : ServerState) (uri : String)
    (hlead : leadsWith "screenshot://".data uri.data = true)
    (hget : mapGet st.screenshots (readResourceKey uri) = none) :
    readResource st uri = .error ("Resource not found: " ++ uri) := by
  unfold readResource
  rw [if_pos hlead, hget]

/-! ## Claim theorems -/

/-- C1: for every tool name (known or unknown) and every arguments object,
`handleToolCall` returns a result envelope and never raises: the envelope
always has content, an error envelope is a single human-readable text
payload, and any exception escaping the try block (session acquisition,
provisioning, or a browser action) is converted into the uniform
`Failed to handle tool call: ...` error envelope.  (The accompanying
`console.error` logging is an I/O effect outside the embedding.) -/
theorem C1_dispatch_total_envelope (name : String) (args : ToolArgs) (w : World)
    (st : ServerState) :
    ((handleToolCall name args w st).1.content ≠ [] ∧
     ((handleToolCall name args w st).1.isError = true →
        ∃ m, (handleToolCall name args w st).1.content = [ContentItem.text m])) ∧
    (∀ e st1, handleToolCallBody name args w st = (.error e, st1) →
       handleToolCall name args w st =
         (textResult ("Failed to handle tool call: " ++ e) true, st1)) := by
  constructor
  · rcases hB : handleToolCallBody name args w st with ⟨res, st1⟩
    cases res with
    | error e =>
      have hh : handleToolCall name args w st =
          (textResult ("Failed to handle tool call: " ++ e) true, st1) := by
        unfold handleToolCall
        rw [hB]
      rw [hh]
      exact textResult_good _ _
    | ok r =>
      have hh : handleToolCall name args w st = (r, st1) := by
        unfold handleToolCall
        rw [hB]
      rw [hh]
      exact body_ok_shape name args w st r st1 hB
  · intro e st1 hB
    unfold handleToolCall
    rw [hB]

/-- Witness for C1 at a concrete input: an unknown tool name in a fresh state
with a failing provisioning fetch yields the uniform outer error envelope. -/
theorem C1_witness :
    handleToolCall "nonsense" {} badFetchWorld initState =
      (textResult ("Failed to handle tool call: " ++ "boom") true,
       failedProvisionState) :=
  (C1_dispatch_total_envelope "nonsense" {} badFetchWorld initState).2 "boom"
    failedProvisionState (by rfl)

/-- C2: when a session is held, a successful liveness probe returns the held
session with the state unchanged, and a throwing probe propagates that
failure upward with the state (and so the held slot) unchanged. -/
theorem C2_ensure_alive_probe (w : World) (st : ServerState) (sess : Session)
    (h0 : st.defaultBrowserSession = some sess) :
    (w.probe sess = .ok () → ensureBrowserSession w st = (.ok sess, st)) ∧
    (∀ e, w.probe sess = .error e → ensureBrowserSession w st = (.error e, st)) :=
  ⟨fun hp => ensure_alive_ok w st sess h0 hp,
   fun e hp => ensure_alive_error w st sess e h0 hp⟩

/-- Witness for C2 at concrete inputs: both probe outcomes. -/
theorem C2_witness :
    ensureBrowserSession okWorld aliveState = (.ok session0, aliveState) ∧
    ensureBrowserSession badProbeWorld aliveState = (.error "dead", aliveState) :=
  ⟨(C2_ensure_alive_probe okWorld aliveState session0 rfl).1 rfl,
   (C2_ensure_alive_probe badProbeWorld aliveState session0 rfl).2 "dead" rfl⟩

/-- C3: from an empty slot, a failing ensure leaves the slot empty, and a
successful ensure stores exactly a session for which the whole provisioning
round-trip (endpoint fetch, then browser connect with page selection)
completed successfully; the slot (a single optional value, so at most one
default session ever exists) is never left holding a partial session. -/
theorem C3_session_slot_atomic (w : World) (st : ServerState)
    (h0 : st.defaultBrowserSession = none) :
    (∀ e st1, ensureBrowserSession w st = (.error e, st1) →
       st1.defaultBrowserSession = none) ∧
    (∀ sess st1, ensureBrowserSession w st = (.ok sess, st1) →
       st1.defaultBrowserSession = some sess ∧
       ∃ url, getBrowserUrl w = .ok url ∧ w.connect url = .ok sess) :=
  ⟨fun e st1 h => (ensure_none_error w st e st1 h0 h).1,
   fun sess st1 h => ensure_none_ok w st sess st1 h0 h⟩

/-- Witness for C3 at a concrete input: the successful provisioning path. -/
theorem C3_witness :
    okProvisionState.defaultBrowserSession = some session0 ∧
    ∃ url, getBrowserUrl okWorld = .ok url ∧ okWorld.connect url = .ok session0 :=
  (C3_session_slot_atomic okWorld initState rfl).2 session0 okProvisionState (by rfl)

/-- C8: a call to any of the seven registered tools from a state with no
session issues exactly one provisioning fetch, and a call made while the
held session's liveness probe succeeds issues none. -/
theorem C8_provisioning_count (name : String) (args : ToolArgs) (w : World)
    (st : ServerState) (h7 : name ∈ toolNames) :
    (st.defaultBrowserSession = none →
       (handleToolCall name args w st).2.fetchCalls = st.fetchCalls + 1) ∧
    (∀ sess, st.defaultBrowserSession = some sess → w.probe sess = .ok () →
       (handleToolCall name args w st).2.fetchCalls = st.fetchCalls) := by
  have hne : name ≠ "cloudbrowser_create_session" := by
    rintro rfl
    revert h7
    decide
  constructor
  · intro h0
    rw [handle_snd, body_fetchCalls name args w st hne, ensure_fetch_none w st h0]
  · intro sess h0 hp
    rw [handle_snd, body_fetchCalls name args w st hne,
        ensure_alive_ok w st sess h0 hp]

/-- Witness for C8 at concrete inputs: a first navigate call provisions once;
a navigate call on a live session provisions zero times. -/
theorem C8_witness :
    (handleToolCall "cloudbrowser_navigate" {} okWorld initState).2.fetchCalls =
      initState.fetchCalls + 1 ∧
    (handleToolCall "cloudbrowser_navigate" {} okWorld aliveState).2.fetchCalls =
      aliveState.fetchCalls :=
  ⟨(C8_provisioning_count "cloudbrowser_navigate" {} okWorld initState
      (by decide)).1 rfl,
   (C8_provisioning_count "cloudbrowser_navigate" {} okWorld aliveState
      (by decide)).2 session0 rfl rfl⟩

/-- C9 counterexample: the unknown name `cloudbrowser_create_session` is
excluded from the session check, so on a fresh state with a failing
provisioner the dispatcher still returns the Unknown-tool envelope with the
state untouched (zero provisioning fetches), even though ensuring a session
would have failed. -/
theorem C9_counterexample :
    handleToolCall "cloudbrowser_create_session" {} badFetchWorld initState =
      (textResult "Unknown tool: cloudbrowser_create_session" true, initState) ∧
    initState.fetchCalls = 0 ∧
    ensureBrowserSession badFetchWorld initState =
      (.error "boom", failedProvisionState) := by
  refine ⟨by decide, rfl, by rfl⟩

/-- C9 (amended): for every unknown tool name other than
`cloudbrowser_create_session`, the dispatcher ensures a session first: the
Unknown-tool envelope is returned only when ensure succeeds, a failing
ensure yields the session-failure envelope instead, and a call on a fresh
state issues one provisioning fetch. -/
theorem C9_unknown_tool_session (name : String) (args : ToolArgs) (w : World)
    (st : ServerState) (h7 : name ∉ toolNames)
    (hc : name ≠ "cloudbrowser_create_session") :
    (∀ sess st1, ensureBrowserSession w st = (.ok sess, st1) →
       handleToolCall name args w st =
         (textResult ("Unknown tool: " ++ name) true, st1)) ∧
    (∀ e st1, ensureBrowserSession w st = (.error e, st1) →
       handleToolCall name args w st =
         (textResult ("Failed to handle tool call: " ++ e) true, st1)) ∧
    (st.defaultBrowserSession = none →
       (handleToolCall name args w st).2.fetchCalls = st.fetchCalls + 1) := by
  refine ⟨?_, ?_, ?_⟩
  · intro sess st1 hE
    have hB : handleToolCallBody name args w st =
        (.ok (textResult ("Unknown tool: " ++ name) true), st1) := by
      unfold handleToolCallBody
      rw [if_neg hc, hE]
      exact dispatch_unknown name args w sess st1 h7
    unfold handleToolCall
    rw [hB]
  · intro e st1 hE
    have hB : handleToolCallBody name args w st = (.error e, st1) := by
      unfold handleToolCallBody
      rw [if_neg hc, hE]
    unfold handleToolCall
    rw [hB]
  · intro h0
    rw [handle_snd, body_fetchCalls name args w st hc, ensure_fetch_none w st h0]

/-- Witness for the amended C9 at a concrete input: an unknown name on a
live session returns the Unknown-tool envelope after a successful ensure. -/
theorem C9_witness :
    handleToolCall "foo" {} okWorld aliveState =
      (textResult ("Unknown tool: " ++ "foo") true, aliveState) :=
  (C9_unknown_tool_session "foo" {} okWorld aliveState (by decide) (by decide)).1
    session0 aliveState (by rfl)

/-- C4 counterexample: the fourth registered tool is the screenshot tool and
its input schema declares no `required` list at all, so it does not require
`name`, contrary to the claim. -/
theorem C4_counterexample :
    (listTools.get ⟨3, by decide⟩).name = "cloudbrowser_screenshot" ∧
    (listTools.get ⟨3, by decide⟩).inputSchema.required = none ∧
    ¬(listTools.get ⟨3, by decide⟩).inputSchema.required = some ["name"] :=
  ⟨rfl, rfl, by decide⟩

set_option maxRecDepth 4000 in
/-- C4 (amended): list_tools returns exactly the seven declared tools in
registration order, each with a non-empty description; the required lists
are `[url]`, `[script]`, absent, absent, `[selector]`, `[selector, value]`,
`[]` — in particular `get_current_url` and `screenshot` declare no required
list, so `screenshot`'s `name` parameter is optional — and the declared
properties match the parameters of each tool. -/
theorem C4_registry :
    listTools.map Tool.name =
      ["cloudbrowser_navigate", "cloudbrowser_evaluate",
       "cloudbrowser_get_current_url", "cloudbrowser_screenshot",
       "cloudbrowser_click", "cloudbrowser_fill", "cloudbrowser_get_text"] ∧
    listTools.all (fun t => t.description.length != 0) = true ∧
    listTools.map (fun t => t.inputSchema.required) =
      [some ["url"], some ["script"], none, none, some ["selector"],
       some ["selector", "value"], some []] ∧
    listTools.map (fun t => t.inputSchema.properties.map PropSpec.propName) =
      [["url"], ["script"], [], ["name"], ["selector"], ["selector", "value"], []] :=
  ⟨rfl, by decide, rfl, rfl⟩

/-- C5 counterexample: the raw page text `color: blue;` passes the CSS
filter (before unescaping it does not end in `;`), and unescaping then turns
it into `color: blue;`, so the get_text output contains a line matching the
bare `property: value;` pattern even though every line that matched before
unescaping was discarded. -/
theorem C5_counterexample :
    getTextContent "color: blue\\u003B" = "color: blue;" ∧
    matchesDecl ("color: blue;".data) = true := by
  decide

/-- C5 (amended): the pipeline splits the raw text into lines, trims them,
discards CSS-looking lines — testing the `property: value;` pattern on the
line before `\uXXXX` unescaping — then unescapes and joins; consequently
every output line is the unescaping of some trimmed raw line that did not
match the pattern, but a line that matches only after unescaping can still
appear in the output. -/
theorem C5_filter_precedes_unescape (raw : String) :
    ∀ l, l ∈ getTextLines raw.data →
      ∃ l0, matchesDecl l0 = false ∧ lineKept l0 = true ∧ l = unescapeChars l0 := by
  intro l hl
  unfold getTextLines at hl
  rcases List.mem_map.mp hl with ⟨l0, hmem, hEq⟩
  have hk : lineKept l0 = true := (List.mem_filter.mp hmem).2
  refine ⟨l0, ?_, hk, hEq.symm⟩
  have hk2 := hk
  unfold lineKept at hk2
  simp only [Bool.and_eq_true, Bool.not_eq_true', Bool.or_eq_false_iff] at hk2
  exact hk2.2.2

/-- Witness for the amended C5 at a concrete input: the single output line
of the counterexample text is the unescaping of a kept line. -/
theorem C5_witness :
    ∃ l0, matchesDecl l0 = false ∧ lineKept l0 = true ∧
      "color: blue;".data = unescapeChars l0 :=
  C5_filter_precedes_unescape "color: blue\\u003B" ("color: blue;".data) (by decide)

/-- C7 counterexample: a 2xx response whose payload has exactly the shape
`code: 200, data.browserUrl: <string>` with the empty string is rejected by
the truthiness check, so the provisioner fails even though the claimed
success shape is met. -/
theorem C7_counterexample :
    provisionOk (getBrowserUrl emptyUrlWorld) = false ∧
    emptyUrlWorld.fetchOutcome =
      .response 200 (Json.obj [("code", Json.num 200),
                               ("data", Json.obj [("browserUrl", Json.str "")])]) :=
  ⟨rfl, rfl⟩

/-- Unfolding of the provisioner on a 2xx response with a null JSON body:
the first property access `data.code` throws the TypeError, which carries no
response body. -/
theorem getBrowserUrl_null_body (w : World) (status : Nat)
    (hfo : w.fetchOutcome = .response status Json.null)
    (h2 : fetchOk status = true) :
    getBrowserUrl w = .error nullCodeAccessError := by
  simp only [getBrowserUrl, hfo]
  rw [if_pos h2]

/-- Unfolding of the provisioner on a 2xx response with a non-null JSON
body: the payload checks decide between returning the endpoint and throwing
the error that renders the response body. -/
theorem getBrowserUrl_notNull_body (w : World) (status : Nat) (body : Json)
    (hfo : w.fetchOutcome = .response status body) (hnn : body ≠ Json.null)
    (h2 : fetchOk status = true) :
    getBrowserUrl w =
      if isNum200 (body.get "code") && (body.get "data").truthy &&
          ((body.get "data").get "browserUrl").truthy then
        .ok ((body.get "data").get "browserUrl")
      else
        .error ("Failed to get browserUrl. Response: " ++ body.stringify) := by
  simp only [getBrowserUrl, hfo]
  cases body with
  | null => exact absurd rfl hnn
  | bool b => rw [if_pos h2]
  | num n => rw [if_pos h2]
  | str s => rw [if_pos h2]
  | arr xs => rw [if_pos h2]
  | obj fs => rw [if_pos h2]

/-- C7 (amended): the provisioner succeeds — returning `data.data.browserUrl`
— exactly when the response has a 2xx status, `data.code` is strictly the
number 200, `data.data` is truthy and `data.data.browserUrl` is truthy (for
a string: non-empty); a transport failure propagates its own error; a
non-2xx status fails with the status text; a 2xx response with a null JSON
body fails with the property-access TypeError, which carries no response
body; a 2xx response with a non-null body failing the payload checks fails
with the error that carries the rendered response body; and no retry is
possible (the single fetch outcome fully determines the result). -/
theorem C7_provisioner (w : World) :
    (∀ v, getBrowserUrl w = .ok v ↔
       ∃ status body, w.fetchOutcome = .response status body ∧
         fetchOk status = true ∧ isNum200 (body.get "code") = true ∧
         (body.get "data").truthy = true ∧
         (body.get "data").get "browserUrl" = v ∧ v.truthy = true) ∧
    (∀ m, w.fetchOutcome = .netError m → getBrowserUrl w = .error m) ∧
    (∀ status body, w.fetchOutcome = .response status body →
       fetchOk status = false →
       getBrowserUrl w = .error ("HTTP error! status: " ++ toString status)) ∧
    (∀ status, w.fetchOutcome = .response status Json.null →
       fetchOk status = true →
       getBrowserUrl w = .error nullCodeAccessError) ∧
    (∀ status body, w.fetchOutcome = .response status body →
       fetchOk status = true → body ≠ Json.null →
       (isNum200 (body.get "code") && (body.get "data").truthy &&
         ((body.get "data").get "browserUrl").truthy) = false →
       getBrowserUrl w =
         .error ("Failed to get browserUrl. Response: " ++ body.stringify)) := by
  refine ⟨?_, ?_, ?_, ?_, ?_⟩
  · intro v
    constructor
    · intro h
      rcases hfo : w.fetchOutcome with m | ⟨s, b⟩
      · simp only [getBrowserUrl, hfo] at h
        injection h
      · by_cases h2 : fetchOk s = true
        · by_cases hnn : b = Json.null
          · subst hnn
            rw [getBrowserUrl_null_body w s hfo h2] at h
            injection h
          · rw [getBrowserUrl_notNull_body w s b hfo hnn h2] at h
            by_cases hc : (isNum200 (b.get "code") && (b.get "data").truthy &&
                ((b.get "data").get "browserUrl").truthy) = true
            · rw [if_pos hc] at h
              injection h with hv
              obtain ⟨⟨hA, hB2⟩, hC⟩ :
                  (isNum200 (b.get "code") = true ∧ (b.get "data").truthy = true) ∧
                  ((b.get "data").get "browserUrl").truthy = true := by
                simpa [Bool.and_eq_true] using hc
              exact ⟨s, b, rfl, h2, hA, hB2, hv, hv ▸ hC⟩
            · rw [if_neg hc] at h
              injection h
        · simp only [getBrowserUrl, hfo] at h
          rw [if_neg h2] at h
          injection h
    · rintro ⟨s, b, hfo, h2, hA, hB2, hv, hvt⟩
      have hnn : b ≠ Json.null := by
        rintro rfl
        simp [Json.get, isNum200] at hA
      have hc : (isNum200 (b.get "code") && (b.get "data").truthy &&
          ((b.get "data").get "browserUrl").truthy) = true := by
        rw [hA, hB2, hv, hvt]
        rfl
      rw [getBrowserUrl_notNull_body w s b hfo hnn h2, if_pos hc, hv]
  · intro m hfo
    simp only [getBrowserUrl, hfo]
  · intro s b hfo h2
    simp only [getBrowserUrl, hfo]
    rw [if_neg]
    rw [h2]
    simp
  · intro s hfo h2
    exact getBrowserUrl_null_body w s hfo h2
  · intro s b hfo h2 hnn hc
    rw [getBrowserUrl_notNull_body w s b hfo hnn h2, if_neg]
    rw [hc]
    simp

/-- Witness for the amended C7 at a concrete input: a well-formed payload
with a non-empty endpoint string succeeds with exactly that endpoint. -/
theorem C7_witness : getBrowserUrl okWorld = .ok (Json.str "ws://b") :=
  ((C7_provisioner okWorld).1 (Json.str "ws://b")).mpr
    ⟨200, okBody, rfl, by decide, rfl, rfl, rfl, rfl⟩

/-- C6: a successful screenshot call under the name `a` stores the captured
base64 blob, after which list_resources lists the entry
`screenshot://a` / `image/png` / `Screenshot: a` and read_resource on
`screenshot://a` returns exactly the stored blob. -/
theorem C6_screenshot_roundtrip (w : World) (st st1 : ServerState)
    (sess : Session) (blob : String)
    (hE : ensureBrowserSession w st = (.ok sess, st1))
    (hS : w.screenshot sess = .ok blob) (hB : blob ≠ "") :
    ({ uri := "screenshot://a", mimeType := "image/png",
       name := "Screenshot: a" } : ResourceEntry) ∈
      listResources (handleToolCall "cloudbrowser_screenshot" { name := "a" } w st).2 ∧
    readResource (handleToolCall "cloudbrowser_screenshot" { name := "a" } w st).2
        "screenshot://a" =
      .ok { uri := "screenshot://a", mimeType := "image/png", blob := blob } := by
  have hD : dispatchTool "cloudbrowser_screenshot" ({ name := "a" } : ToolArgs) w sess st1 =
      (.ok { content := [ContentItem.text "Screenshot taken",
                         ContentItem.image blob "image/png"],
             isError := false },
       { st1 with screenshots := mapSet st1.screenshots "a" blob,
                  listChanged := st1.listChanged + 1 }) := by
    unfold dispatchTool
    rw [if_neg (by decide), if_neg (by decide), if_neg (by decide), if_pos rfl]
    simp only [hS]
    rw [if_neg hB]
  have hB2 : handleToolCallBody "cloudbrowser_screenshot" ({ name := "a" } : ToolArgs) w st =
      (.ok { content := [ContentItem.text "Screenshot taken",
                         ContentItem.image blob "image/png"],
             isError := false },
       { st1 with screenshots := mapSet st1.screenshots "a" blob,
                  listChanged := st1.listChanged + 1 }) := by
    unfold handleToolCallBody
    rw [if_neg (by decide), hE]
    exact hD
  have hH : (handleToolCall "cloudbrowser_screenshot" ({ name := "a" } : ToolArgs) w st).2 =
      { st1 with screenshots := mapSet st1.screenshots "a" blob,
                 listChanged := st1.listChanged + 1 } := by
    rw [handle_snd, hB2]
  rw [hH]
  have hkey : readResourceKey "screenshot://a" = "a" := by decide
  constructor
  · unfold listResources
    obtain ⟨v, hv⟩ := exists_mem_mapSet st1.screenshots "a" blob
    exact List.mem_map.mpr ⟨("a", v), hv, by simp⟩
  · exact readResource_found _ "screenshot://a" blob (by decide)
      (by rw [hkey]; exact mapGet_mapSet_self st1.screenshots "a" blob)

/-- Witness for C6 at concrete inputs: a live session whose screenshot call
returns the blob `IMG`. -/
theorem C6_witness :
    ({ uri := "screenshot://a", mimeType := "image/png",
       name := "Screenshot: a" } : ResourceEntry) ∈
      listResources (handleToolCall "cloudbrowser_screenshot" { name := "a" }
        okWorld aliveState).2 ∧
    readResource (handleToolCall "cloudbrowser_screenshot" { name := "a" }
        okWorld aliveState).2 "screenshot://a" =
      .ok { uri := "screenshot://a", mimeType := "image/png", blob := "IMG" } :=
  C6_screenshot_roundtrip okWorld aliveState aliveState session0 "IMG"
    (by rfl) (by rfl) (by decide)

/-- C10 counterexample: with screenshots stored under both `a` and `a://b`,
reading `screenshot://a://b` does not fail with Resource not found — it
returns the blob stored under `a` (still breaking the round-trip, but not
by failing). -/
theorem C10_counterexample :
    readResource twoShotState ("screenshot://" ++ "a://b") =
      .ok { uri := "screenshot://" ++ "a://b", mimeType := "image/png",
            blob := "B1" } ∧
    mapGet twoShotState.screenshots "a://b" = some "B2" :=
  ⟨by rfl, by rfl⟩

/-- C10 (amended): read_resource splits the URI on every `://` and takes the
second segment; for a stored name free of `://` this is the name itself and
the round-trip succeeds, while for a name containing `://` the handler looks
up only the portion of the name before its first `://` — a strictly shorter
string — and fails with Resource Not Found exactly when that portion is not
itself a stored name (otherwise it silently returns that other entry's
blob); either way the round-trip for such names is broken. -/
theorem C10_read_split (st : ServerState) (name : String) :
    (hasSep name.data = false →
       readResourceKey ("screenshot://" ++ name) = name ∧
       ∀ blob, mapGet st.screenshots name = some blob →
         readResource st ("screenshot://" ++ name) =
           .ok { uri := "screenshot://" ++ name, mimeType := "image/png",
                 blob := blob }) ∧
    (hasSep name.data = true →
       readResourceKey ("screenshot://" ++ name) = String.mk (beforeSep name.data) ∧
       String.mk (beforeSep name.data) ≠ name ∧
       (mapGet st.screenshots (String.mk (beforeSep name.data)) = none →
          readResource st ("screenshot://" ++ name) =
            .error ("Resource not found: " ++ ("screenshot://" ++ name)))) := by
  have hdata : ("screenshot://" ++ name).data =
      "screenshot".data ++ ':' :: '/' :: '/' :: name.data := by
    have h1 : ("screenshot://" ++ name).data = "screenshot://".data ++ name.data := rfl
    have h2 : "screenshot://".data = "screenshot".data ++ [':', '/', '/'] := by decide
    rw [h1, h2, List.append_assoc]
    rfl
  have hsplit : splitUrlSep (("screenshot://" ++ name)).data =
      "screenshot".data :: splitUrlSep name.data := by
    rw [hdata]
    exact splitUrlSep_append name.data (by decide)
  have hlead : leadsWith "screenshot://".data (("screenshot://" ++ name)).data = true := by
    have h1 : ("screenshot://" ++ name).data = "screenshot://".data ++ name.data := rfl
    rw [h1]
    exact leadsWith_append _ _
  constructor
  · intro hno
    have hkey : readResourceKey ("screenshot://" ++ name) = name := by
      unfold readResourceKey
      rw [hsplit, splitUrlSep_eq_self hno]
      rfl
    refine ⟨hkey, ?_⟩
    intro blob hget
    exact readResource_found st _ blob hlead (by rw [hkey]; exact hget)
  · intro hyes
    obtain ⟨hdec, hbefore⟩ := beforeSep_spec hyes
    have hsplit2 : splitUrlSep name.data =
        beforeSep name.data :: splitUrlSep (afterSep name.data) := by
      conv_lhs => rw [hdec]
      exact splitUrlSep_append _ hbefore
    have hkey : readResourceKey ("screenshot://" ++ name) =
        String.mk (beforeSep name.data) := by
      unfold readResourceKey
      rw [hsplit, hsplit2]
      rfl
    have hne : String.mk (beforeSep name.data) ≠ name := by
      intro hEq
      have hdataEq : beforeSep name.data = name.data := congrArg String.data hEq
      have hlen := congrArg List.length hdec
      rw [hdataEq] at hlen
      simp only [List.length_append, List.length_cons] at hlen
      omega
    refine ⟨hkey, hne, ?_⟩
    intro hmiss
    exact readResource_missing st _ hlead (by rw [hkey]; exact hmiss)

/-- Witness for the amended C10 at a concrete input: with only `a://b`
stored, reading `screenshot://a://b` fails with Resource not found. -/
theorem C10_witness :
    readResource oneShotState ("screenshot://" ++ "a://b") =
      .error ("Resource not found: " ++ ("screenshot://" ++ "a://b")) :=
  ((C10_read_split oneShotState "a://b").2 (by decide)).2.2 (by decide)

end CloudBrowser
